import Mathlib

/-!
# Verification of `plexwebsocket.py`

A shallow embedding of the `python-plexwebsocket` library: the per-session
significance filter (`WebsocketPlayer`, `PlexWebsocket.player_event`), the
connection lifecycle of `PlexWebsocket.running`, and the `listen` / `close`
entry points.

Timestamps (Python `datetime` differences in seconds) and delays are modelled
as rationals; Python's float arithmetic on these values is exact for the
inputs considered.  Python `dict` is modelled as an association list with
dict-style insert / pop / membership.  Exceptions raised while handling a
payload are modelled with `Except`.  The external callback and `asyncio.sleep`
calls are recorded in an event trace.
-/

/-- Constant `SIGNAL_CONNECTION_STATE` from the source. -/
def SIGNAL_CONNECTION_STATE : String := "plexwebsocket_state"

/-- Constant `ERROR_AUTH_FAILURE` from the source. -/
def ERROR_AUTH_FAILURE : String := "Authorization failure"

/-- Constant `ERROR_TOO_MANY_RETRIES` from the source. -/
def ERROR_TOO_MANY_RETRIES : String := "Too many retries"

/-- Constant `ERROR_UNKNOWN` from the source. -/
def ERROR_UNKNOWN : String := "Unknown"

/-- Constant `MAX_FAILED_ATTEMPTS` from the source. -/
def MAX_FAILED_ATTEMPTS : Nat := 5

/-- Constant `STATE_CONNECTED` from the source. -/
def STATE_CONNECTED : String := "connected"

/-- Constant `STATE_DISCONNECTED` from the source. -/
def STATE_DISCONNECTED : String := "disconnected"

/-- Constant `STATE_STARTING` from the source. -/
def STATE_STARTING : String := "starting"

/-- Constant `STATE_STOPPED` from the source. -/
def STATE_STOPPED : String := "stopped"

/-- The mutable fields of Python class `WebsocketPlayer`.  `timestamp` is the
`datetime` of the last observation, in seconds. -/
structure WebsocketPlayer where
  session_id : String
  state : String
  media_key : String
  position : Int
  timestamp : ℚ
  deriving DecidableEq, Repr

/-- Method `WebsocketPlayer.significant_position_change`: seek detection.  `timediff`
is `(timestamp - self.timestamp).total_seconds()`, `posdiff` the position delta
in seconds. -/
def WebsocketPlayer.significant_position_change (self : WebsocketPlayer)
    (timestamp : ℚ) (new_position : Int) : Bool :=
  let timediff : ℚ := timestamp - self.timestamp
  let posdiff : ℚ := ((new_position : ℚ) - (self.position : ℚ)) / 1000
  let diffdiff : ℚ := timediff - posdiff
  if |diffdiff| > 5 then true else false

/-- The `self.players` dict: an association list keyed by session id. -/
abbrev Players := List (String × WebsocketPlayer)

/-- Dict lookup (`self.players[k]` / `k in self.players`). -/
def Players.find : Players → String → Option WebsocketPlayer
  | [], _ => none
  | (k, p) :: rest, key => if k = key then some p else Players.find rest key

/-- Dict assignment `self.players[key] = p`: replace in place or append. -/
def Players.insert : Players → String → WebsocketPlayer → Players
  | [], key, p => [(key, p)]
  | (k, q) :: rest, key, p =>
      if k = key then (key, p) :: rest else (k, q) :: Players.insert rest key p

/-- Dict removal `self.players.pop(key)`. -/
def Players.pop : Players → String → Players
  | [], _ => []
  | (k, q) :: rest, key => if k = key then rest else (k, q) :: Players.pop rest key

/-- The fields of `msg["PlaySessionStateNotification"][0]` consulted by
`player_event`; each is `none` when the key is absent from the JSON object
(in Python, `payload[...]` raises `KeyError` then, while `.get` yields
`None`). -/
structure Payload where
  sessionKey : Option String
  state : Option String
  key : Option String
  viewOffset : Option Int
  deriving DecidableEq, Repr

/-- A decoded websocket text message: its `NotificationContainer` with the
`type` string and, when present and non-empty, the first element of
`PlaySessionStateNotification` (`none` models a missing key or empty list,
where indexing raises). -/
structure Msg where
  mtype : String
  notif : Option Payload
  deriving DecidableEq, Repr

/-- Method `PlexWebsocket.player_event`, with `datetime.now()` passed in as `now`.
`Except.error ()` models an uncaught Python exception (`KeyError` /
`IndexError`); on that path no mutation has happened yet, so only the
unchanged `players` would survive.  `Except.ok (b, ps)` returns the function
result `b` and the dict after mutation. -/
def player_event (players : Players) (msg : Msg) (now : ℚ) :
    Except Unit (Bool × Players) :=
  match msg.notif with
  | none => Except.error ()
  | some payload =>
    match payload.sessionKey with
    | none => Except.ok (false, players)
    | some session_id =>
      match payload.state, payload.key, payload.viewOffset with
      | some state, some media_key, some position =>
        match Players.find players session_id with
        | none =>
            Except.ok (true, Players.insert players session_id
              ⟨session_id, state, media_key, position, now⟩)
        | some player =>
            if state = "stopped" then
              Except.ok (true, Players.pop players session_id)
            else
              let should_fire : Bool :=
                if state ≠ "buffering" then
                  if player.media_key ≠ media_key ∨ player.state ≠ state then
                    true
                  else if state = "playing" ∧
                      player.significant_position_change now position = true then
                    true
                  else false
                else false
              Except.ok (should_fire, Players.insert players session_id
                { player with state := state, media_key := media_key,
                              position := position, timestamp := now })
      | _, _, _ => Except.error ()

/-- What the `callback` receives as its `data` argument: either a `STATE_*`
string (from the state setter) or a whole decoded message. -/
inductive CallbackData where
  | stateVal (s : String)
  | payload (msg : Msg)
  deriving DecidableEq, Repr

/-- Observable effects of the machine: `callback(msgtype, data, error)`
invocations and `asyncio.sleep(seconds)` calls. -/
inductive Event where
  | callback (msgtype : String) (data : CallbackData) (error : Option String)
  | sleep (seconds : ℚ)
  deriving DecidableEq, Repr

/-- The mutable fields of Python class `PlexWebsocket` that the lifecycle
logic touches.  `state` starts as Python `None`, hence `Option`. -/
structure PlexWebsocket where
  players : Players
  subscriptions : List String
  state : Option String
  failed_attempts : Nat
  error_reason : Option String
  deriving DecidableEq, Repr

/-- The `state` property setter: records the new state, invokes
`callback(SIGNAL_CONNECTION_STATE, value, self._error_reason)`, then clears
`_error_reason`. -/
def setState (self : PlexWebsocket) (value : String) : PlexWebsocket × Event :=
  ({ self with state := some value, error_reason := none },
   Event.callback SIGNAL_CONNECTION_STATE (CallbackData.stateVal value)
     self.error_reason)

/-- One frame yielded by the `async for` loop over the websocket client:
a TEXT message (with the ambient `datetime.now()` at processing time),
a CLOSED frame, an ERROR frame, or a frame of any other type. -/
inductive InMessage where
  | text (msg : Msg) (now : ℚ)
  | closed
  | wsError
  | other
  deriving DecidableEq, Repr

/-- How the read loop ended. -/
inductive LoopExit where
  | finished
  | broke
  | raised
  deriving DecidableEq, Repr

/-- The body of `async for message in ws_client` in `PlexWebsocket.running`:
processes frames in order, accumulating callback events, until the frames run
out (`finished`), a `break` executes (`broke`), or an exception escapes a
`player_event` call (`raised`). -/
def processLoop (self : PlexWebsocket) :
    List InMessage → PlexWebsocket × List Event × LoopExit
  | [] => (self, [], LoopExit.finished)
  | m :: rest =>
    if self.state = some STATE_STOPPED then (self, [], LoopExit.broke)
    else
      match m with
      | InMessage.text msg now =>
        if msg.mtype ∈ self.subscriptions then
          if msg.mtype = "playing" then
            match player_event self.players msg now with
            | Except.error _ => (self, [], LoopExit.raised)
            | Except.ok (fire, players1) =>
              let self1 := { self with players := players1 }
              if fire then
                let r := processLoop self1 rest
                (r.1, Event.callback msg.mtype (CallbackData.payload msg) none
                  :: r.2.1, r.2.2)
              else
                processLoop self1 rest
          else
            let r := processLoop self rest
            (r.1, Event.callback msg.mtype (CallbackData.payload msg) none
              :: r.2.1, r.2.2)
        else
          processLoop self rest
      | InMessage.closed => (self, [], LoopExit.broke)
      | InMessage.wsError => (self, [], LoopExit.broke)
      | InMessage.other => processLoop self rest

/-- How the stream ends when the loop consumes every frame without breaking:
a graceful end of iteration, or an exception raised by the transport while
reading — a `ClientConnectionError` / `TimeoutError` (transient) or any other
exception. -/
inductive StreamEnd where
  | exhausted
  | raiseTransient
  | raiseUnexpected
  deriving DecidableEq, Repr

/-- Outcome of `self.session.ws_connect(...)`: an auth failure
(`ClientResponseError` with code 401), another `ClientResponseError`, a
`ClientConnectionError` / `TimeoutError`, any other exception, or a
successful connection yielding frames and a stream-end behaviour. -/
inductive ConnectResult where
  | authFail
  | respFail
  | connFail
  | unexpectedFail
  | ok (msgs : List InMessage) (endKind : StreamEnd)
  deriving DecidableEq, Repr

/-- The `retry_delay` expression in the transient-failure handler:
`min(2 ** (self.failed_attempts - 1) * 30, 300)`.  Python's `**` on a
negative exponent yields a float, so `failed_attempts = 0` gives
`2 ** (-1) * 30 = 15.0`. -/
def retry_delay (failed_attempts : Nat) : ℚ :=
  min ((2 : ℚ) ^ ((failed_attempts : ℤ) - 1) * 30) 300

/-- The `except (aiohttp.ClientConnectionError, asyncio.TimeoutError)`
branch of `running`. -/
def transientBranch (self : PlexWebsocket) : PlexWebsocket × List Event :=
  if self.failed_attempts ≥ MAX_FAILED_ATTEMPTS then
    let self1 := { self with error_reason := some ERROR_TOO_MANY_RETRIES }
    let s := setState self1 STATE_STOPPED
    (s.1, [s.2])
  else if self.state ≠ some STATE_STOPPED then
    let d := retry_delay self.failed_attempts
    let self1 := { self with failed_attempts := self.failed_attempts + 1 }
    let s := setState self1 STATE_DISCONNECTED
    (s.1, [s.2, Event.sleep d])
  else (self, [])

/-- The broad `except Exception` branch of `running`. -/
def unexpectedBranch (self : PlexWebsocket) : PlexWebsocket × List Event :=
  if self.state ≠ some STATE_STOPPED then
    let self1 := { self with error_reason := some ERROR_UNKNOWN }
    let s := setState self1 STATE_STOPPED
    (s.1, [s.2])
  else (self, [])

/-- The `else` clause of the `try` in `running` (graceful stream end):
transition to disconnected, clear `self.players`, `await asyncio.sleep(5)`. -/
def gracefulTail (self : PlexWebsocket) : PlexWebsocket × List Event :=
  if self.state ≠ some STATE_STOPPED then
    let s := setState self STATE_DISCONNECTED
    let self1 := { s.1 with players := [] }
    (self1, [s.2, Event.sleep 5])
  else (self, [])

/-- Method `PlexWebsocket.running`: one connection cycle, parameterised by the
transport's behaviour for this attempt. -/
def running (self : PlexWebsocket) (r : ConnectResult) :
    PlexWebsocket × List Event :=
  let s0 := setState self STATE_STARTING
  match r with
  | ConnectResult.authFail =>
      let s := setState { s0.1 with error_reason := some ERROR_AUTH_FAILURE }
        STATE_STOPPED
      (s.1, [s0.2, s.2])
  | ConnectResult.respFail =>
      let s := setState { s0.1 with error_reason := some ERROR_UNKNOWN }
        STATE_STOPPED
      (s.1, [s0.2, s.2])
  | ConnectResult.connFail =>
      let t := transientBranch s0.1
      (t.1, s0.2 :: t.2)
  | ConnectResult.unexpectedFail =>
      let t := unexpectedBranch s0.1
      (t.1, s0.2 :: t.2)
  | ConnectResult.ok msgs endKind =>
      let s1 := setState s0.1 STATE_CONNECTED
      let self2 := { s1.1 with failed_attempts := 0 }
      let p := processLoop self2 msgs
      let tail :=
        match p.2.2 with
        | LoopExit.raised => unexpectedBranch p.1
        | LoopExit.broke => gracefulTail p.1
        | LoopExit.finished =>
          match endKind with
          | StreamEnd.exhausted => gracefulTail p.1
          | StreamEnd.raiseTransient => transientBranch p.1
          | StreamEnd.raiseUnexpected => unexpectedBranch p.1
      (tail.1, s0.2 :: s1.2 :: (p.2.1 ++ tail.2))

/-- Method `PlexWebsocket.close`: one assignment to the `state` property. -/
def close (self : PlexWebsocket) : PlexWebsocket × Event :=
  setState self STATE_STOPPED

/-- The `while self.state != STATE_STOPPED: await self.running()` loop of
`listen`, driven by a list of per-attempt transport behaviours (the loop stops
when the list runs out). -/
def listenAux : PlexWebsocket → List ConnectResult → PlexWebsocket × List Event
  | self, [] => (self, [])
  | self, r :: rs =>
    if self.state = some STATE_STOPPED then (self, [])
    else
      let a := running self r
      let b := listenAux a.1 rs
      (b.1, a.2 ++ b.2)

/-- Method `PlexWebsocket.listen`: reset `failed_attempts`, then the retry loop. -/
def listen (self : PlexWebsocket) (rs : List ConnectResult) :
    PlexWebsocket × List Event :=
  listenAux { self with failed_attempts := 0 } rs

/-! ## Concrete fixtures used by witnesses and counterexamples -/

/-- A freshly constructed instance: empty player dict, default
subscriptions `["playing"]`, state `None`, no failures. -/
def freshWS : PlexWebsocket := ⟨[], ["playing"], none, 0, none⟩

/-- A fresh instance after a clean stop. -/
def stoppedWS : PlexWebsocket := { freshWS with state := some STATE_STOPPED }

/-- A tracked player that was last observed paused at position 0, time 0. -/
def pausedPlayer : WebsocketPlayer := ⟨"1", "paused", "m1", 0, 0⟩

/-- A tracked player that was last observed playing at position 0, time 0. -/
def playingPlayer : WebsocketPlayer := ⟨"1", "playing", "m1", 0, 0⟩

/-! ## Dictionary lemmas -/

theorem Players.find_mem {k : String} {p : WebsocketPlayer} :
    ∀ {ps : Players}, Players.find ps k = some p → (k, p) ∈ ps := by
  intro ps
  induction ps with
  | nil => intro h; simp [Players.find] at h
  | cons hd tl ih =>
    intro h
    obtain ⟨a, b⟩ := hd
    simp only [Players.find] at h
    by_cases hak : a = k
    · rw [if_pos hak] at h
      subst hak
      cases h
      exact List.mem_cons_self _ _
    · rw [if_neg hak] at h
      exact List.mem_cons_of_mem _ (ih h)

theorem Players.find_insert_self (ps : Players) (k : String)
    (v : WebsocketPlayer) :
    Players.find (Players.insert ps k v) k = some v := by
  induction ps with
  | nil => simp [Players.insert, Players.find]
  | cons hd tl ih =>
    obtain ⟨a, b⟩ := hd
    by_cases hak : a = k
    · simp [Players.insert, Players.find, hak]
    · simp [Players.insert, Players.find, hak, ih]

theorem Players.find_insert_ne (ps : Players) (k q : String)
    (v : WebsocketPlayer) (h : q ≠ k) :
    Players.find (Players.insert ps k v) q = Players.find ps q := by
  induction ps with
  | nil => simp [Players.insert, Players.find, Ne.symm h]
  | cons hd tl ih =>
    obtain ⟨a, b⟩ := hd
    by_cases hak : a = k
    · subst hak
      simp [Players.insert, Players.find, Ne.symm h]
    · by_cases haq : a = q
      · simp [Players.insert, Players.find, hak, haq, h]
      · simp [Players.insert, Players.find, hak, haq, ih]

theorem Players.find_pop_ne (ps : Players) (k q : String) (h : q ≠ k) :
    Players.find (Players.pop ps k) q = Players.find ps q := by
  induction ps with
  | nil => simp [Players.pop]
  | cons hd tl ih =>
    obtain ⟨a, b⟩ := hd
    by_cases hak : a = k
    · subst hak
      simp [Players.pop, Players.find, Ne.symm h]
    · by_cases haq : a = q
      · simp [Players.pop, Players.find, hak, haq, h]
      · simp [Players.pop, Players.find, hak, haq, ih]

theorem Players.find_eq_none {ps : Players} {k : String}
    (h : k ∉ ps.map Prod.fst) : Players.find ps k = none := by
  induction ps with
  | nil => rfl
  | cons hd tl ih =>
    obtain ⟨a, b⟩ := hd
    simp only [List.map_cons, List.mem_cons] at h
    push_neg at h
    have hne : ¬ a = k := fun hh => h.1 hh.symm
    simp [Players.find, hne, ih h.2]

theorem Players.find_pop_self {ps : Players} {k : String}
    (h : (ps.map Prod.fst).Nodup) :
    Players.find (Players.pop ps k) k = none := by
  induction ps with
  | nil => rfl
  | cons hd tl ih =>
    obtain ⟨a, b⟩ := hd
    simp only [List.map_cons, List.nodup_cons] at h
    by_cases hak : a = k
    · subst hak
      simp only [Players.pop, if_pos rfl]
      exact Players.find_eq_none h.1
    · simp [Players.pop, Players.find, hak, ih h.2]

theorem Players.mem_insert {k : String} {v : WebsocketPlayer}
    {q : String × WebsocketPlayer} :
    ∀ {ps : Players}, q ∈ Players.insert ps k v → q = (k, v) ∨ q ∈ ps := by
  intro ps
  induction ps with
  | nil =>
    intro h
    simp [Players.insert] at h
    exact Or.inl h
  | cons hd tl ih =>
    intro h
    obtain ⟨a, b⟩ := hd
    by_cases hak : a = k
    · rw [Players.insert, if_pos hak] at h
      rcases List.mem_cons.mp h with h1 | h1
      · exact Or.inl h1
      · exact Or.inr (List.mem_cons_of_mem _ h1)
    · rw [Players.insert, if_neg hak] at h
      rcases List.mem_cons.mp h with h1 | h1
      · exact Or.inr (h1 ▸ List.mem_cons_self _ _)
      · rcases ih h1 with h2 | h2
        · exact Or.inl h2
        · exact Or.inr (List.mem_cons_of_mem _ h2)

theorem Players.mem_pop {k : String} {q : String × WebsocketPlayer} :
    ∀ {ps : Players}, q ∈ Players.pop ps k → q ∈ ps := by
  intro ps
  induction ps with
  | nil => intro h; simp [Players.pop] at h
  | cons hd tl ih =>
    intro h
    obtain ⟨a, b⟩ := hd
    by_cases hak : a = k
    · rw [Players.pop, if_pos hak] at h
      exact List.mem_cons_of_mem _ h
    · rw [Players.pop, if_neg hak] at h
      rcases List.mem_cons.mp h with h1 | h1
      · exact h1 ▸ List.mem_cons_self _ _
      · exact List.mem_cons_of_mem _ (ih h1)

/-! ## C1: retry backoff and the retry ceiling -/

/-- C1: on a transient connection failure, when `failed_attempts` is below
`MAX_FAILED_ATTEMPTS` the machine emits starting → disconnected, sleeps
`retry_delay failed_attempts`, and increments the counter; once the counter
has reached the ceiling the next failure transitions to stopped with reason
`ERROR_TOO_MANY_RETRIES` and no sleep.  The actual delay table starts at
15 s (Python `2 ** (0 - 1) * 30 = 15.0`), then 30, 60, 120, 240, and is
capped at 300. -/
theorem C1_retry_policy (m : PlexWebsocket) :
    (m.failed_attempts < MAX_FAILED_ATTEMPTS →
      running m ConnectResult.connFail =
        ({ m with state := some STATE_DISCONNECTED, error_reason := none,
                  failed_attempts := m.failed_attempts + 1 },
         [Event.callback SIGNAL_CONNECTION_STATE
            (CallbackData.stateVal STATE_STARTING) m.error_reason,
          Event.callback SIGNAL_CONNECTION_STATE
            (CallbackData.stateVal STATE_DISCONNECTED) none,
          Event.sleep (retry_delay m.failed_attempts)])) ∧
    (MAX_FAILED_ATTEMPTS ≤ m.failed_attempts →
      running m ConnectResult.connFail =
        ({ m with state := some STATE_STOPPED, error_reason := none },
         [Event.callback SIGNAL_CONNECTION_STATE
            (CallbackData.stateVal STATE_STARTING) m.error_reason,
          Event.callback SIGNAL_CONNECTION_STATE
            (CallbackData.stateVal STATE_STOPPED)
            (some ERROR_TOO_MANY_RETRIES)])) ∧
    retry_delay 0 = 15 ∧ retry_delay 1 = 30 ∧ retry_delay 2 = 60 ∧
    retry_delay 3 = 120 ∧ retry_delay 4 = 240 ∧ retry_delay 5 = 300 ∧
    retry_delay 6 = 300 := by
  refine ⟨?_, ?_, ?_, ?_, ?_, ?_, ?_, ?_, ?_⟩
  · intro h
    have h5 : ¬ (m.failed_attempts ≥ MAX_FAILED_ATTEMPTS) := by omega
    simp [running, setState, transientBranch, h5, STATE_STARTING, STATE_STOPPED]
  · intro h
    have h5 : m.failed_attempts ≥ MAX_FAILED_ATTEMPTS := h
    simp [running, setState, transientBranch, h5]
  all_goals norm_num [retry_delay]

/-- C1 witness: a fresh instance has `failed_attempts = 0 < 5`, and its first
transient failure sleeps `retry_delay 0` before retrying. -/
theorem C1_retry_policy_witness :
    freshWS.failed_attempts < MAX_FAILED_ATTEMPTS ∧
    running freshWS ConnectResult.connFail =
      ({ freshWS with state := some STATE_DISCONNECTED, error_reason := none,
                      failed_attempts := freshWS.failed_attempts + 1 },
       [Event.callback SIGNAL_CONNECTION_STATE
          (CallbackData.stateVal STATE_STARTING) freshWS.error_reason,
        Event.callback SIGNAL_CONNECTION_STATE
          (CallbackData.stateVal STATE_DISCONNECTED) none,
        Event.sleep (retry_delay freshWS.failed_attempts)]) :=
  ⟨by decide, (C1_retry_policy freshWS).1 (by decide)⟩

/-- C1 counterexample to the claimed delay table: the delay before the very
first retry is 15 seconds, not the claimed 30 seconds. -/
theorem C1_counterexample :
    (running freshWS ConnectResult.connFail).2 =
      [Event.callback SIGNAL_CONNECTION_STATE
         (CallbackData.stateVal STATE_STARTING) none,
       Event.callback SIGNAL_CONNECTION_STATE
         (CallbackData.stateVal STATE_DISCONNECTED) none,
       Event.sleep 15] ∧
    (15 : ℚ) ≠ 30 := by
  constructor
  · simp [running, setState, transientBranch, freshWS, MAX_FAILED_ATTEMPTS,
      STATE_STARTING, STATE_STOPPED]
    norm_num [retry_delay]
  · norm_num

/-! ## C2: position jumps and playback state -/

/-- C2 amended: a position jump mismatching wall time by more than 5 seconds
is reported significant whenever the *reported* state is `"playing"` — via
the seek check when the stored state and media key match, via the
state/media-change rule otherwise. -/
theorem C2_seek_requires_playing (players : Players) (sid mk : String)
    (player : WebsocketPlayer) (pos : Int) (now : ℚ)
    (hfind : Players.find players sid = some player)
    (hjump : |(now - player.timestamp) -
        (((pos : ℚ) - (player.position : ℚ)) / 1000)| > 5) :
    player_event players
        ⟨"playing", some ⟨some sid, some "playing", some mk, some pos⟩⟩ now =
      Except.ok (true, Players.insert players sid
        { player with state := "playing", media_key := mk,
                      position := pos, timestamp := now }) := by
  have hsig : player.significant_position_change now pos = true := by
    simp [WebsocketPlayer.significant_position_change, hjump]
  by_cases hch : player.media_key ≠ mk ∨ player.state ≠ "playing"
  · simp [player_event, hfind, hch]
  · simp [player_event, hfind, hch, hsig]

/-- C2 witness: a playing session whose position jumps 100 seconds while one
wall-clock second elapses is reported significant. -/
theorem C2_seek_requires_playing_witness :
    Players.find [("1", playingPlayer)] "1" = some playingPlayer ∧
    |((1 : ℚ) - playingPlayer.timestamp) -
        ((((100000 : Int) : ℚ) - (playingPlayer.position : ℚ)) / 1000)| > 5 ∧
    player_event [("1", playingPlayer)]
        ⟨"playing", some ⟨some "1", some "playing", some "m1", some 100000⟩⟩ 1 =
      Except.ok (true, Players.insert [("1", playingPlayer)] "1"
        { playingPlayer with state := "playing", media_key := "m1",
                             position := 100000, timestamp := 1 }) :=
  ⟨by simp [Players.find], by norm_num [playingPlayer],
   C2_seek_requires_playing [("1", playingPlayer)] "1" "m1" playingPlayer
     100000 1 (by simp [Players.find]) (by norm_num [playingPlayer])⟩

/-- C2 counterexample: the same 100-second jump on a session that is and
stays `"paused"` (same media key) is *not* reported significant, refuting
"regardless of the session's stored or reported playback state". -/
theorem C2_counterexample :
    player_event [("1", pausedPlayer)]
        ⟨"playing", some ⟨some "1", some "paused", some "m1", some 100000⟩⟩ 1 =
      Except.ok (false,
        [("1", { pausedPlayer with position := 100000, timestamp := 1 })]) ∧
    |((1 : ℚ) - pausedPlayer.timestamp) -
        ((((100000 : Int) : ℚ) - (pausedPlayer.position : ℚ)) / 1000)| > 5 := by
  constructor
  · simp [player_event, pausedPlayer, Players.find, Players.insert]
  · norm_num [pausedPlayer]

/-! ## C3: `state: "stopped"` payloads -/

/-- C3 amended: a `"stopped"` payload always reports significant, but removes
the session only when it was already tracked (assuming the dict has no
duplicate keys); for an untracked session id it instead *creates* a tracker
entry recording state `"stopped"`, which remains present after the call. -/
theorem C3_stopped_behavior (players : Players) (mt sid mk : String)
    (pos : Int) (now : ℚ) (hnd : (players.map Prod.fst).Nodup) :
    ∃ ps', player_event players
        ⟨mt, some ⟨some sid, some "stopped", some mk, some pos⟩⟩ now =
        Except.ok (true, ps') ∧
      Players.find ps' sid =
        (if Players.find players sid = none
         then some ⟨sid, "stopped", mk, pos, now⟩ else none) := by
  cases h : Players.find players sid with
  | none =>
    exact ⟨Players.insert players sid ⟨sid, "stopped", mk, pos, now⟩,
      by simp [player_event, h], by simp [h, Players.find_insert_self]⟩
  | some player =>
    exact ⟨Players.pop players sid,
      by simp [player_event, h], by simp [h, Players.find_pop_self hnd]⟩

/-- C3 witness: on a one-entry dict a `"stopped"` payload fires and removes
the entry. -/
theorem C3_stopped_behavior_witness :
    (([("1", pausedPlayer)] : Players).map Prod.fst).Nodup ∧
    ∃ ps', player_event [("1", pausedPlayer)]
        ⟨"playing", some ⟨some "1", some "stopped", some "m1", some 0⟩⟩ 0 =
        Except.ok (true, ps') ∧
      Players.find ps' "1" =
        (if Players.find [("1", pausedPlayer)] "1" = none
         then some ⟨"1", "stopped", "m1", 0, 0⟩ else none) :=
  ⟨by simp,
   C3_stopped_behavior [("1", pausedPlayer)] "playing" "1" "m1" 0 0 (by simp)⟩

/-- C3 counterexample: on an *empty* tracker a `"stopped"` payload leaves its
session id present in the mapping (a fresh entry is created), refuting
"that sessionID is absent from the tracker's session mapping ... regardless
of whether the session was already tracked". -/
theorem C3_counterexample :
    player_event []
        ⟨"playing", some ⟨some "1", some "stopped", some "m1", some 0⟩⟩ 0 =
      Except.ok (true, [("1", ⟨"1", "stopped", "m1", 0, 0⟩)]) ∧
    Players.find [("1", (⟨"1", "stopped", "m1", 0, 0⟩ : WebsocketPlayer))] "1"
      ≠ none := by
  constructor
  · rfl
  · simp [Players.find]

/-! ## The read loop only mutates `players` -/

theorem processLoop_state : ∀ (msgs : List InMessage) (self : PlexWebsocket),
    (processLoop self msgs).1.state = self.state := by
  intro msgs
  induction msgs with
  | nil => intro self; rfl
  | cons m rest ih =>
    intro self
    rw [processLoop.eq_def]
    by_cases hstop : self.state = some STATE_STOPPED
    · simp [hstop]
    · cases m with
      | text msg now =>
        simp only [if_neg hstop]
        by_cases hsub : msg.mtype ∈ self.subscriptions
        · by_cases hplay : msg.mtype = "playing"
          · simp only [if_pos hsub, if_pos hplay]
            cases hpe : player_event self.players msg now with
            | error e => rfl
            | ok pr =>
              obtain ⟨fire, players1⟩ := pr
              cases fire <;> simp [hpe, ih]
          · simp [if_pos hsub, if_neg hplay, ih]
        · simp [if_neg hsub, ih]
      | closed => simp [hstop]
      | wsError => simp [hstop]
      | other => simp [hstop, ih]

/-! ## C4: which disconnects clear the session dict -/

/-- The machine `processLoop` runs on inside a successful `running` cycle:
state set to starting then connected, `failed_attempts` reset. -/
def connectedWS (m : PlexWebsocket) : PlexWebsocket :=
  { players := m.players, subscriptions := m.subscriptions,
    state := some STATE_CONNECTED, failed_attempts := 0, error_reason := none }

/-- Characterisation of a successful `running` cycle in terms of
`connectedWS` and `processLoop`; holds by unfolding. -/
theorem running_ok (m : PlexWebsocket) (msgs : List InMessage)
    (endK : StreamEnd) :
    running m (ConnectResult.ok msgs endK) =
      ((match (processLoop (connectedWS m) msgs).2.2 with
        | LoopExit.raised =>
            unexpectedBranch (processLoop (connectedWS m) msgs).1
        | LoopExit.broke => gracefulTail (processLoop (connectedWS m) msgs).1
        | LoopExit.finished =>
          match endK with
          | StreamEnd.exhausted =>
              gracefulTail (processLoop (connectedWS m) msgs).1
          | StreamEnd.raiseTransient =>
              transientBranch (processLoop (connectedWS m) msgs).1
          | StreamEnd.raiseUnexpected =>
              unexpectedBranch (processLoop (connectedWS m) msgs).1).1,
       Event.callback SIGNAL_CONNECTION_STATE
           (CallbackData.stateVal STATE_STARTING) m.error_reason ::
       Event.callback SIGNAL_CONNECTION_STATE
           (CallbackData.stateVal STATE_CONNECTED) none ::
       ((processLoop (connectedWS m) msgs).2.1 ++
        (match (processLoop (connectedWS m) msgs).2.2 with
         | LoopExit.raised =>
             unexpectedBranch (processLoop (connectedWS m) msgs).1
         | LoopExit.broke => gracefulTail (processLoop (connectedWS m) msgs).1
         | LoopExit.finished =>
           match endK with
           | StreamEnd.exhausted =>
               gracefulTail (processLoop (connectedWS m) msgs).1
           | StreamEnd.raiseTransient =>
               transientBranch (processLoop (connectedWS m) msgs).1
           | StreamEnd.raiseUnexpected =>
               unexpectedBranch (processLoop (connectedWS m) msgs).1).2)) :=
  rfl

/-- C4 amended: the session dict is cleared before the next attempt only on
the graceful stream-end path (the `else` clause); a transient connection
failure leaves `players` untouched. -/
theorem C4_clear_only_on_graceful_end (m : PlexWebsocket)
    (msgs : List InMessage)
    (hnoraise : (processLoop (connectedWS m) msgs).2.2 ≠ LoopExit.raised) :
    (running m (ConnectResult.ok msgs StreamEnd.exhausted)).1.players = [] ∧
    (running m ConnectResult.connFail).1.players = m.players := by
  constructor
  · have hstate : (processLoop (connectedWS m) msgs).1.state =
        some STATE_CONNECTED := by
      rw [processLoop_state]; rfl
    rw [running_ok]
    cases hex : (processLoop (connectedWS m) msgs).2.2 with
    | raised => exact absurd hex hnoraise
    | broke =>
      simp [hex, gracefulTail, setState, hstate, STATE_CONNECTED, STATE_STOPPED]
    | finished =>
      simp [hex, gracefulTail, setState, hstate, STATE_CONNECTED, STATE_STOPPED]
  · simp only [running, setState, transientBranch]
    split_ifs <;> rfl

/-- C4 witness: with no frames the stream ends gracefully and a previously
tracked session is gone; a transient failure keeps it. -/
theorem C4_clear_only_on_graceful_end_witness :
    (processLoop (connectedWS { freshWS with players := [("1", pausedPlayer)] })
        []).2.2 ≠ LoopExit.raised ∧
    (running { freshWS with players := [("1", pausedPlayer)] }
        (ConnectResult.ok [] StreamEnd.exhausted)).1.players = [] ∧
    (running { freshWS with players := [("1", pausedPlayer)] }
        ConnectResult.connFail).1.players =
      ({ freshWS with players := [("1", pausedPlayer)] }).players :=
  ⟨by simp [processLoop],
   (C4_clear_only_on_graceful_end { freshWS with players := [("1", pausedPlayer)] }
      [] (by simp [processLoop])).1,
   (C4_clear_only_on_graceful_end { freshWS with players := [("1", pausedPlayer)] }
      [] (by simp [processLoop])).2⟩

/-- C4 counterexample: after a transient connection error the tracked session
survives into the next attempt, refuting "cleared after every disconnect —
whether a graceful stream end or a transient error". -/
theorem C4_counterexample :
    (running { freshWS with players := [("1", pausedPlayer)] }
        ConnectResult.connFail).1.players = [("1", pausedPlayer)] ∧
    ([("1", pausedPlayer)] : Players) ≠ [] := by
  constructor
  · simp only [running, setState, transientBranch]
    split_ifs <;> rfl
  · simp

/-! ## C5: `"buffering"` updates -/

/-- C5: an update reporting `"buffering"` for a tracked session is never
significant — even when the stored media key or state differ — yet the stored
state, media key, position and timestamp are all overwritten with the
reported values. -/
theorem C5_buffering_updates_silently (players : Players) (mt sid mk : String)
    (player : WebsocketPlayer) (pos : Int) (now : ℚ)
    (hfind : Players.find players sid = some player) :
    player_event players
        ⟨mt, some ⟨some sid, some "buffering", some mk, some pos⟩⟩ now =
      Except.ok (false, Players.insert players sid
        { player with state := "buffering", media_key := mk,
                      position := pos, timestamp := now }) ∧
    Players.find (Players.insert players sid
        { player with state := "buffering", media_key := mk,
                      position := pos, timestamp := now }) sid =
      some { player with state := "buffering", media_key := mk,
                         position := pos, timestamp := now } := by
  constructor
  · simp [player_event, hfind]
  · exact Players.find_insert_self _ _ _

/-- C5 witness: a buffering update with a *different* media key and state on
a tracked paused session returns `false` and overwrites the stored fields. -/
theorem C5_buffering_updates_silently_witness :
    Players.find [("1", pausedPlayer)] "1" = some pausedPlayer ∧
    player_event [("1", pausedPlayer)]
        ⟨"playing", some ⟨some "1", some "buffering", some "m2", some 777⟩⟩ 9 =
      Except.ok (false, Players.insert [("1", pausedPlayer)] "1"
        { pausedPlayer with state := "buffering", media_key := "m2",
                            position := 777, timestamp := 9 }) :=
  ⟨by simp [Players.find],
   (C5_buffering_updates_silently [("1", pausedPlayer)] "playing" "1" "m2"
     pausedPlayer 777 9 (by simp [Players.find])).1⟩

/-! ## C6: malformed `"playing"` payloads -/

/-- C6 amended: a payload whose session key is absent is ignored — not
significant, dict untouched, nothing raised; but a subscribed `"playing"`
payload that *has* a session key and is missing its `state` field raises
(`KeyError`), which the broad handler turns into a permanent stop with
error reason `ERROR_UNKNOWN`. -/
theorem C6_malformed_payloads (m : PlexWebsocket) (payload : Payload)
    (now : ℚ) (rest : List InMessage) (endK : StreamEnd)
    (hsub : "playing" ∈ m.subscriptions) :
    (payload.sessionKey = none →
      player_event m.players ⟨"playing", some payload⟩ now =
        Except.ok (false, m.players)) ∧
    (∀ sid, payload.sessionKey = some sid → payload.state = none →
      running m (ConnectResult.ok
          (InMessage.text ⟨"playing", some payload⟩ now :: rest) endK) =
        ({ connectedWS m with state := some STATE_STOPPED },
         [Event.callback SIGNAL_CONNECTION_STATE
            (CallbackData.stateVal STATE_STARTING) m.error_reason,
          Event.callback SIGNAL_CONNECTION_STATE
            (CallbackData.stateVal STATE_CONNECTED) none,
          Event.callback SIGNAL_CONNECTION_STATE
            (CallbackData.stateVal STATE_STOPPED) (some ERROR_UNKNOWN)])) := by
  constructor
  · intro hk
    simp [player_event, hk]
  · intro sid hsid hst
    have hpe : player_event m.players
        ⟨"playing", some payload⟩ now = Except.error () := by
      simp [player_event, hsid, hst]
    rw [running_ok]
    rw [processLoop.eq_def]
    simp [connectedWS, STATE_CONNECTED, STATE_STOPPED, hsub, hpe,
      unexpectedBranch, setState, ERROR_UNKNOWN]

/-- C6 witness: session key absent → ignored; session key present but state
missing → not covered here (see the theorem's second conjunct applied in
`C6_counterexample`-like form). -/
theorem C6_malformed_payloads_witness :
    "playing" ∈ freshWS.subscriptions ∧
    ((⟨none, some "playing", some "m1", some 0⟩ : Payload).sessionKey = none →
      player_event freshWS.players
          ⟨"playing", some ⟨none, some "playing", some "m1", some 0⟩⟩ 0 =
        Except.ok (false, freshWS.players)) :=
  ⟨by simp [freshWS],
   (C6_malformed_payloads freshWS ⟨none, some "playing", some "m1", some 0⟩
     0 [] StreamEnd.exhausted (by simp [freshWS])).1⟩

/-- C6 counterexample: a subscribed `"playing"` payload carrying a session
key but no `state` field stops the machine with reason `ERROR_UNKNOWN`,
refuting "the machine is never stopped by such a payload". -/
theorem C6_counterexample :
    (running freshWS (ConnectResult.ok
        [InMessage.text ⟨"playing", some ⟨some "1", none, some "m1", some 0⟩⟩ 0]
        StreamEnd.exhausted)).1.state = some STATE_STOPPED ∧
    (running freshWS (ConnectResult.ok
        [InMessage.text ⟨"playing", some ⟨some "1", none, some "m1", some 0⟩⟩ 0]
        StreamEnd.exhausted)).2 =
      [Event.callback SIGNAL_CONNECTION_STATE
         (CallbackData.stateVal STATE_STARTING) none,
       Event.callback SIGNAL_CONNECTION_STATE
         (CallbackData.stateVal STATE_CONNECTED) none,
       Event.callback SIGNAL_CONNECTION_STATE
         (CallbackData.stateVal STATE_STOPPED) (some ERROR_UNKNOWN)] := by
  have h := (C6_malformed_payloads freshWS ⟨some "1", none, some "m1", some 0⟩
    0 [] StreamEnd.exhausted (by simp [freshWS])).2 "1" rfl rfl
  rw [h]
  constructor <;> rfl

/-! ## C7: messages of unsubscribed types -/

/-- C7 amended: while the machine is not stopped, *every* text message whose
type is not in the subscription set is discarded — no callback, no dict
mutation, no state change; there is no always-forwarded generic type. -/
theorem C7_unsubscribed_discarded (self : PlexWebsocket) (msg : Msg)
    (now : ℚ) (rest : List InMessage)
    (hns : msg.mtype ∉ self.subscriptions)
    (hstop : self.state ≠ some STATE_STOPPED) :
    processLoop self (InMessage.text msg now :: rest) =
      processLoop self rest := by
  rw [processLoop.eq_def]
  simp [hstop, hns]

/-- C7 witness: a `"update.statechange"` message (the device
connect/disconnect notification type) is dropped when only `"playing"` is
subscribed. -/
theorem C7_unsubscribed_discarded_witness :
    ("update.statechange" ∉
      ({ freshWS with state := some STATE_CONNECTED }).subscriptions) ∧
    ({ freshWS with state := some STATE_CONNECTED }).state ≠
      some STATE_STOPPED ∧
    processLoop { freshWS with state := some STATE_CONNECTED }
        [InMessage.text ⟨"update.statechange", none⟩ 0] =
      processLoop { freshWS with state := some STATE_CONNECTED } [] :=
  ⟨by simp [freshWS], by simp [freshWS, STATE_CONNECTED, STATE_STOPPED],
   C7_unsubscribed_discarded { freshWS with state := some STATE_CONNECTED }
     ⟨"update.statechange", none⟩ 0 [] (by simp [freshWS])
     (by simp [freshWS, STATE_CONNECTED, STATE_STOPPED])⟩

/-- C7 counterexample: a full connection cycle that receives one
`"update.statechange"` message invokes no message callback at all — only the
connection-state signals and the courtesy sleep — refuting "forwarded to the
external callback, never suppressed". -/
theorem C7_counterexample :
    (running freshWS (ConnectResult.ok
        [InMessage.text ⟨"update.statechange", none⟩ 0]
        StreamEnd.exhausted)).2 =
      [Event.callback SIGNAL_CONNECTION_STATE
         (CallbackData.stateVal STATE_STARTING) none,
       Event.callback SIGNAL_CONNECTION_STATE
         (CallbackData.stateVal STATE_CONNECTED) none,
       Event.callback SIGNAL_CONNECTION_STATE
         (CallbackData.stateVal STATE_DISCONNECTED) none,
       Event.sleep 5] ∧
    ((running freshWS (ConnectResult.ok
        [InMessage.text ⟨"update.statechange", none⟩ 0]
        StreamEnd.exhausted)).2.all fun e =>
      match e with
      | Event.callback _ (CallbackData.payload _) _ => false
      | _ => true) = true := by
  rw [running_ok, processLoop.eq_def]
  constructor <;>
    simp [connectedWS, freshWS, processLoop, gracefulTail, setState,
      STATE_CONNECTED, STATE_STOPPED]

/-! ## C8: `close()` on an already stopped machine -/

/-- C8 amended: calling `close()` when the state is already stopped leaves
the state stopped and every other field unchanged (apart from clearing the
error reason) and cannot raise — but, because the state setter
unconditionally fires the callback, each such call *does* emit one
connection-state callback. -/
theorem C8_close_when_stopped (m : PlexWebsocket)
    (h : m.state = some STATE_STOPPED) :
    (close m).1.state = some STATE_STOPPED ∧
    (close m).1.players = m.players ∧
    (close m).1.subscriptions = m.subscriptions ∧
    (close m).1.failed_attempts = m.failed_attempts ∧
    (close m).1.error_reason = none ∧
    (close m).2 = Event.callback SIGNAL_CONNECTION_STATE
      (CallbackData.stateVal STATE_STOPPED) m.error_reason :=
  ⟨rfl, rfl, rfl, rfl, rfl, rfl⟩

/-- C8 witness: closing the already stopped fixture changes nothing but
emits the repeated stopped signal. -/
theorem C8_close_when_stopped_witness :
    stoppedWS.state = some STATE_STOPPED ∧
    (close stoppedWS).1.state = some STATE_STOPPED ∧
    (close stoppedWS).2 = Event.callback SIGNAL_CONNECTION_STATE
      (CallbackData.stateVal STATE_STOPPED) stoppedWS.error_reason :=
  ⟨rfl, (C8_close_when_stopped stoppedWS rfl).1,
   (C8_close_when_stopped stoppedWS rfl).2.2.2.2.2⟩

/-- C8 counterexample: `close()` on an already stopped machine emits a
callback invocation, refuting "no callback invocation is emitted by the
call". -/
theorem C8_counterexample :
    (close stoppedWS).2 =
      Event.callback SIGNAL_CONNECTION_STATE
        (CallbackData.stateVal STATE_STOPPED) none := rfl

/-! ## C9: `listen()` after a clean stop -/

/-- C9 amended: calling `listen()` when the state is already stopped resets
`failed_attempts` but returns immediately: the loop body never runs, no
transition to starting happens, and no connection attempt is made. -/
theorem C9_listen_noop_when_stopped (m : PlexWebsocket)
    (rs : List ConnectResult) (h : m.state = some STATE_STOPPED) :
    listen m rs = ({ m with failed_attempts := 0 }, []) := by
  cases rs with
  | nil => rfl
  | cons r rest =>
    show listenAux { m with failed_attempts := 0 } (r :: rest) = _
    rw [listenAux.eq_def]
    simp [h]

/-- C9 witness: on the stopped fixture `listen` with one available attempt
returns at once with an empty trace. -/
theorem C9_listen_noop_when_stopped_witness :
    stoppedWS.state = some STATE_STOPPED ∧
    listen stoppedWS [ConnectResult.connFail] =
      ({ stoppedWS with failed_attempts := 0 }, []) :=
  ⟨rfl, C9_listen_noop_when_stopped stoppedWS [ConnectResult.connFail] rfl⟩

/-- C9 counterexample: after a clean stop, `listen()` performs no transition
to starting at all — the event trace is empty — refuting "at least one new
connection attempt (a transition to Starting) is performed rather than
returning immediately". -/
theorem C9_counterexample :
    listen stoppedWS [ConnectResult.connFail, ConnectResult.connFail] =
      (stoppedWS, []) := rfl

/-! ## C10: keying invariant and per-call frame property -/

/-- Every entry of the dict is stored under its own `session_id`. -/
def WellKeyed (ps : Players) : Prop := ∀ kp ∈ ps, kp.2.session_id = kp.1

/-- The operations that touch `self.players`: one `player_event` call (an
exception leaves the dict untouched, since the source raises before any
mutation) or the bulk `self.players.clear()` on reconnect. -/
inductive TrackerOp where
  | ev (msg : Msg) (now : ℚ)
  | clearOp
  deriving DecidableEq, Repr

/-- Apply one tracker operation to the dict. -/
def applyOp (ps : Players) : TrackerOp → Players
  | TrackerOp.ev msg now =>
    match player_event ps msg now with
    | Except.ok (_, ps') => ps'
    | Except.error _ => ps
  | TrackerOp.clearOp => []

/-- The dict reached from the initial empty dict by a sequence of tracker
operations. -/
def applyOps (ops : List TrackerOp) : Players := ops.foldl applyOp []

theorem WellKeyed_player_event {ps : Players} {msg : Msg} {now : ℚ}
    {b : Bool} {ps' : Players} (hwk : WellKeyed ps)
    (h : player_event ps msg now = Except.ok (b, ps')) : WellKeyed ps' := by
  obtain ⟨mt, notif⟩ := msg
  cases notif with
  | none => simp [player_event] at h
  | some payload =>
    obtain ⟨sk, st, k, vo⟩ := payload
    cases sk with
    | none =>
      simp [player_event] at h
      rw [← h.2]
      exact hwk
    | some sid =>
      cases st with
      | none => simp [player_event] at h
      | some state =>
        cases k with
        | none => simp [player_event] at h
        | some media_key =>
          cases vo with
          | none => simp [player_event] at h
          | some position =>
            cases hfind : Players.find ps sid with
            | none =>
              simp [player_event, hfind] at h
              rw [← h.2]
              intro kp hkp
              rcases Players.mem_insert hkp with h1 | h1
              · rw [h1]
              · exact hwk kp h1
            | some player =>
              by_cases hstop : state = "stopped"
              · simp [player_event, hfind, hstop] at h
                rw [← h.2]
                intro kp hkp
                exact hwk kp (Players.mem_pop hkp)
              · simp [player_event, hfind, hstop] at h
                rw [← h.2]
                intro kp hkp
                rcases Players.mem_insert hkp with h1 | h1
                · rw [h1]
                  exact hwk (sid, player) (Players.find_mem hfind)
                · exact hwk kp h1

theorem WellKeyed_applyOp {ps : Players} (hwk : WellKeyed ps)
    (op : TrackerOp) : WellKeyed (applyOp ps op) := by
  cases op with
  | clearOp => intro kp hkp; simp [applyOp] at hkp
  | ev msg now =>
    rw [applyOp]
    cases hpe : player_event ps msg now with
    | error e => exact hwk
    | ok pr =>
      obtain ⟨b, ps'⟩ := pr
      exact WellKeyed_player_event hwk hpe

theorem WellKeyed_foldl (ops : List TrackerOp) :
    ∀ ps, WellKeyed ps → WellKeyed (ops.foldl applyOp ps) := by
  induction ops with
  | nil => intro ps h; exact h
  | cons op rest ih => intro ps h; exact ih _ (WellKeyed_applyOp h op)

/-- C10: (i) in every dict reachable from the initial empty dict by
`player_event` calls and bulk clears, each key maps to a record whose
`session_id` equals that key; (ii) one `player_event` call leaves every
entry other than the one named by the payload's session key untouched. -/
theorem C10_keying_and_frame (ops : List TrackerOp) (ps : Players)
    (msg : Msg) (now : ℚ) (q : String)
    (hq : ∀ payload, msg.notif = some payload →
      payload.sessionKey ≠ some q) :
    WellKeyed (applyOps ops) ∧
    Players.find (applyOp ps (TrackerOp.ev msg now)) q =
      Players.find ps q := by
  constructor
  · exact WellKeyed_foldl ops [] (by intro kp hkp; simp at hkp)
  · obtain ⟨mt, notif⟩ := msg
    cases notif with
    | none => simp [applyOp, player_event]
    | some payload =>
      obtain ⟨sk, st, k, vo⟩ := payload
      cases sk with
      | none => simp [applyOp, player_event]
      | some sid =>
        have hsome : (some sid : Option String) ≠ some q := hq _ rfl
        have hqs : q ≠ sid := fun hh => hsome (by rw [hh])
        cases st with
        | none => simp [applyOp, player_event]
        | some state =>
          cases k with
          | none => simp [applyOp, player_event]
          | some media_key =>
            cases vo with
            | none => simp [applyOp, player_event]
            | some position =>
              cases hfind : Players.find ps sid with
              | none =>
                simp [applyOp, player_event, hfind,
                  Players.find_insert_ne _ _ _ _ hqs]
              | some player =>
                by_cases hstop : state = "stopped"
                · simp [applyOp, player_event, hfind, hstop,
                    Players.find_pop_ne _ _ _ hqs]
                · simp [applyOp, player_event, hfind, hstop,
                    Players.find_insert_ne _ _ _ _ hqs]

/-- C10 witness: with one update for session "2" and a clear, the reachable
dict is well keyed, and an update for "2" does not disturb the entry for
"1". -/
theorem C10_keying_and_frame_witness :
    (∀ payload,
      (⟨"playing", some ⟨some "2", some "playing", some "m2", some 0⟩⟩ :
        Msg).notif = some payload → payload.sessionKey ≠ some "1") ∧
    WellKeyed (applyOps
      [TrackerOp.ev
        ⟨"playing", some ⟨some "2", some "playing", some "m2", some 0⟩⟩ 0,
       TrackerOp.clearOp]) ∧
    Players.find (applyOp [("1", pausedPlayer)]
        (TrackerOp.ev
          ⟨"playing", some ⟨some "2", some "playing", some "m2", some 0⟩⟩ 0))
        "1" =
      Players.find [("1", pausedPlayer)] "1" :=
  ⟨by intro p hp; cases hp; decide,
   (C10_keying_and_frame
     [TrackerOp.ev
       ⟨"playing", some ⟨some "2", some "playing", some "m2", some 0⟩⟩ 0,
      TrackerOp.clearOp]
     [("1", pausedPlayer)]
     ⟨"playing", some ⟨some "2", some "playing", some "m2", some 0⟩⟩ 0 "1"
     (by intro p hp; cases hp; decide)).1,
   (C10_keying_and_frame
     [TrackerOp.ev
       ⟨"playing", some ⟨some "2", some "playing", some "m2", some 0⟩⟩ 0,
      TrackerOp.clearOp]
     [("1", pausedPlayer)]
     ⟨"playing", some ⟨some "2", some "playing", some "m2", some 0⟩⟩ 0 "1"
     (by intro p hp; cases hp; decide)).2⟩
